import Mathlib

/-!
Verification of the transaction-categorization script
(moneymoney_update_category.py): a three-stage pipeline that exports
transactions from a finance application over an automation bridge,
classifies them with an AI backend, and writes categories back.

The embedding models the script's pure control flow directly; the two
external collaborators (the osascript automation bridge and the AI
backend) are passed in as oracles describing their observable outcome,
and every external invocation the script performs is recorded in a
call trace.
-/

namespace MMAI

/-- The fixed list of allowed category labels (AVAILABLE_CATEGORIES). -/
def AVAILABLE_CATEGORIES : List String :=
  ["Uncategorized", "Auto", "Family", "Health & Personal Care", "Household & Home",
   "Leisure & Entertainment", "Miscellaneous", "Pets", "Shopping", "Tax",
   "Travel & Transportation", "AVC", "Pension", "Real Estate", "Rental Income",
   "Savings", "Online Services", "Deposit", "Insurance", "Business Expenses",
   "Utilities", "Investments"]

/-- The UUID of the source category (UNCATGEGORIZED_CATEGORY_UUID, sic). -/
def UNCATGEGORIZED_CATEGORY_UUID : String := "a2fea395-d50a-41f9-913a-4a73dec89e72"

/-- The configured lookback window in days (DAYS_TO_EXPORT). -/
def DAYS_TO_EXPORT : Nat := 20

/-- The configured provider constant (AI_PROVIDER). -/
def AI_PROVIDER : String := "deepseek"

/-- A value found in a loosely typed plist field.  The script only
distinguishes whether it is a date (so the strftime call works), a
number (so the fixed-point float format works), or anything else
(either operation raises). -/
inductive PlistVal where
  | date (ordinal : Int)
  | num (cents : Int)
  | str (s : String)
  | other
deriving DecidableEq, Repr

/-- A transaction record as decoded from the exported plist.  Fields the
script reads with dict.get are Option-valued: a missing key yields the
script's default.  The id field is read with a direct subscript
(trx with key id), so its absence raises in the script; hence it is
Option-valued here and its absence is modelled as an error.  The
bookingDate and amount fields keep their raw plist typing, because the
report loop applies strftime and float formatting to them unguarded. -/
structure Transaction where
  id : Option String
  bookingDate : Option PlistVal
  name : Option String
  purpose : Option String
  amount : Option PlistVal
  currency : Option String
  booked : Option Bool
deriving DecidableEq, Repr

/-- The strftime call on the bookingDate value: succeeds on the
datetime default when the key is missing and on an actual date value,
raises AttributeError on every other value. -/
def strftimeOk : Option PlistVal → Bool
  | none => true
  | some (PlistVal.date _) => true
  | some _ => false

/-- The fixed-point float format applied to the amount value: succeeds
on the 0.0 default when the key is missing and on a numeric value,
raises on every other value. -/
def floatFormatOk : Option PlistVal → Bool
  | none => true
  | some (PlistVal.num _) => true
  | some _ => false

/-- One line of the export report prints without raising. -/
def reportLineOk (t : Transaction) : Bool :=
  strftimeOk t.bookingDate && floatFormatOk t.amount

/-- The export report loop raises on some transaction of the list. -/
def reportCrashes (ts : List Transaction) : Bool :=
  ts.any (fun t => !(reportLineOk t))

/-- Truthiness test the script applies when filtering booked
transactions: trx.get of the booked key, missing treated as false. -/
def isBooked (t : Transaction) : Bool := t.booked.getD false

/-- The description string built for the AI request:
recipient name, a separating dash, and the purpose text. -/
def detailForAi (t : Transaction) : String :=
  t.name.getD "" ++ " - " ++ t.purpose.getD ""

/-- One element of the request payload sent to the AI backend. -/
structure InputItem where
  id : String
  detail : String
deriving DecidableEq, Repr

/-- Builds the request payload (input_json_list) from the transactions.
Reading the id key with a subscript raises a KeyError in the script when
the key is missing; that exception is raised outside any try block, so
the whole construction is Except-valued. -/
def buildInputList : List Transaction → Except Unit (List InputItem)
  | [] => Except.ok []
  | t :: rest =>
    match t.id with
    | none => Except.error ()
    | some i =>
      match buildInputList rest with
      | Except.error e => Except.error e
      | Except.ok items => Except.ok ({ id := i, detail := detailForAi t } :: items)

/-- One entry of the backend's categorized_transactions array.  Both
fields are read with a direct subscript in the script, so a missing
field raises (inside the try block). -/
structure RespItem where
  id : Option String
  category : Option String
deriving DecidableEq, Repr

/-- The observable shape of the text the backend returned, as seen by
the response-handling code: unusable text (json.loads raises), a JSON
value that is not an object (the .get attribute access raises), an
object lacking the categorized_transactions key (.get defaults to an
empty array), or an object carrying the entries array. -/
inductive RespContent where
  | unparsable
  | notAnObject
  | objectWithoutField
  | objectWith (entries : List RespItem)
deriving DecidableEq, Repr

/-- Outcome of the AI backend call: an exception during the API call,
or a returned response body. -/
inductive AiCallOutcome where
  | exn
  | response (content : RespContent)
deriving DecidableEq, Repr

/-- Python-dict insertion: if the key is present its value is replaced
in place (insertion order kept), otherwise the pair is appended. -/
def insertAssoc (m : List (String × String)) (k v : String) : List (String × String) :=
  if m.any (fun p => p.1 = k) then
    m.map (fun p => if p.1 = k then (k, v) else p)
  else m ++ [(k, v)]

/-- Lookup in the insertion-ordered association list. -/
def lookupAssoc : List (String × String) → String → Option String
  | [], _ => none
  | p :: rest, k => if p.1 = k then some p.2 else lookupAssoc rest k

/-- The dict comprehension building id_to_category_map: entries are
inserted left to right, a later entry overwriting an earlier one with
the same id; an entry missing either field raises, discarding the whole
map (the exception is caught by the surrounding handler). -/
def buildIdCategoryMapAux : List (String × String) → List RespItem → Option (List (String × String))
  | acc, [] => some acc
  | acc, item :: rest =>
    match item.id, item.category with
    | some i, some c => buildIdCategoryMapAux (insertAssoc acc i c) rest
    | _, _ => none

/-- Builds the id-to-category map from the response entries. -/
def buildIdCategoryMap (entries : List RespItem) : Option (List (String × String)) :=
  buildIdCategoryMapAux [] entries

/-- The providers for which the script issues an API request. -/
def providerSupported (provider : String) : Bool :=
  provider = "openai" || provider = "deepseek" || provider = "anthropic"

/-- The try block of get_ai_categories_batch from the API call to the
map construction: every exception path yields the empty map.  For an
unsupported provider the response text stays empty and json.loads
raises, also yielding the empty map. -/
def classifyParse (provider : String) (outcome : AiCallOutcome) : List (String × String) :=
  if providerSupported provider then
    match outcome with
    | AiCallOutcome.exn => []
    | AiCallOutcome.response RespContent.unparsable => []
    | AiCallOutcome.response RespContent.notAnObject => []
    | AiCallOutcome.response RespContent.objectWithoutField => []
    | AiCallOutcome.response (RespContent.objectWith entries) =>
      match buildIdCategoryMap entries with
      | none => []
      | some m => m
  else []

/-- get_ai_categories_batch: builds the payload (raising on a missing
transaction id), then submits it and parses the response; the oracle
maps the submitted payload to the backend's observable outcome. -/
def get_ai_categories_batch (oracle : List InputItem → AiCallOutcome)
    (provider : String) (ts : List Transaction) :
    Except Unit (List (String × String)) :=
  match buildInputList ts with
  | Except.error e => Except.error e
  | Except.ok items => Except.ok (classifyParse provider (oracle items))

/-- The plist payload as the script sees it after parsing: the optional
transactions key, plus whether the dict holds any other key (which
decides Python truthiness of the parsed dict). -/
structure ExportedData where
  transactions : Option (List Transaction)
  hasOtherKeys : Bool
deriving DecidableEq, Repr

/-- Python truthiness of the parsed plist dict: non-empty iff it has
the transactions key or some other key. -/
def ExportedData.isTruthy (d : ExportedData) : Bool :=
  d.transactions.isSome || d.hasOtherKeys

/-- The top-level value of a parsable plist: a dict, or any other value
(array, data, ...), which the script's attribute-style .get access
cannot handle; for a non-dict only its Python truthiness matters. -/
inductive ParsedTop where
  | dict (d : ExportedData)
  | nonDict (truthy : Bool)
deriving DecidableEq, Repr

/-- Python truthiness of the parsed top-level value. -/
def ParsedTop.isTruthy : ParsedTop → Bool
  | ParsedTop.dict d => d.isTruthy
  | ParsedTop.nonDict t => t

/-- The stdout produced by the export automation call: empty (falsy
bytes), bytes plistlib cannot parse, or a parsable plist. -/
inductive Stdout where
  | empty
  | unparsable
  | plist (p : ParsedTop)
deriving DecidableEq, Repr

/-- Observable outcome of the osascript export invocation. -/
structure OsaOutcome where
  returncode : Int
  stdout : Stdout
  stderrMsg : String
deriving DecidableEq, Repr

/-- The messages the script prints, abstracted from their literal
format strings. -/
inductive Msg where
  | exportStart
  | exportCallError (err : String)
  | exportNoData
  | exportParseError
  | exportOk
  | exportReport (n : Nat)
  | step2
  | noBooked
  | aiCategorized (n : Nat)
  | step3 (n : Nat)
  | noUpdates
  | updateFailed (i : String)
  | allUpdated
  | finalSummary (exported updated : Nat)
  | allDone
  | fatalMissingKey (provider : String)
  | fatalUnknownProvider (provider : String)
deriving DecidableEq, Repr

/-- The export AppleScript command: the source category and the
absolute start date (dates are modelled by their day ordinal). -/
structure ExportCommand where
  categoryUuid : String
  fromDate : Int
deriving DecidableEq, Repr

/-- from_date computation: today minus the lookback window in days. -/
def computeFromDate (today : Int) (daysToExport : Nat) : Int :=
  today - daysToExport

/-- Builds the export command for a given day and window. -/
def buildExportCommand (today : Int) (daysToExport : Nat) (categoryUuid : String) :
    ExportCommand :=
  { categoryUuid := categoryUuid, fromDate := computeFromDate today daysToExport }

/-- export_transactions_from_moneymoney: runs the automation call and
returns the parsed payload, or none on a non-zero exit, empty stdout,
or an unparsable payload; paired with the messages it prints. -/
def export_transactions_from_moneymoney (outcome : OsaOutcome) :
    Option ParsedTop × List Msg :=
  if outcome.returncode ≠ 0 then
    (none, [Msg.exportStart, Msg.exportCallError outcome.stderrMsg])
  else
    match outcome.stdout with
    | Stdout.empty => (none, [Msg.exportStart, Msg.exportNoData])
    | Stdout.unparsable => (none, [Msg.exportStart, Msg.exportParseError])
    | Stdout.plist p => (some p, [Msg.exportStart, Msg.exportOk])

/-- update_transaction_in_moneymoney: one automation call per
invocation; a CalledProcessError is caught and reported, so the
function only ever yields its printed messages. -/
def update_transaction_in_moneymoney (success : Bool) (transaction_id : String) :
    List Msg :=
  if success then [] else [Msg.updateFailed transaction_id]

/-- One write-back automation call: the transaction id and the literal
category string placed into the AppleScript command. -/
structure UpdateCall where
  trxId : String
  category : String
deriving DecidableEq, Repr

/-- The Stage 3 loop over the id-to-category map: for each entry one
update call is issued; the oracle tells whether that call succeeds. -/
def writerLoop (oracle : String → String → Bool) :
    List (String × String) → List UpdateCall × List Msg
  | [] => ([], [])
  | p :: rest =>
    let msgs := update_transaction_in_moneymoney (oracle p.1 p.2) p.1
    let r := writerLoop oracle rest
    ({ trxId := p.1, category := p.2 } :: r.1, msgs ++ r.2)

/-- Every external invocation the script can perform. -/
inductive ExternalCall where
  | osaExport (cmd : ExportCommand)
  | aiCall (provider : String) (items : List InputItem)
  | osaUpdate (c : UpdateCall)
deriving DecidableEq, Repr

/-- The three credential environment variables, as os.getenv sees
them. -/
structure Env where
  openaiKey : Option String
  anthropicKey : Option String
  deepseekKey : Option String
deriving DecidableEq, Repr

/-- Python falsiness of an os.getenv result: missing, or present but
empty. -/
def falsyKey : Option String → Bool
  | none => true
  | some s => s = ""

/-- How a run of the script ends: an explicit exit call, an uncaught
exception, or falling off the end of the program. -/
inductive Termination where
  | exited (code : Nat)
  | crashed
  | finished
deriving DecidableEq, Repr

/-- The observable result of a run: how it terminated, the external
calls it issued in order, and the messages it printed. -/
structure RunResult where
  termination : Termination
  calls : List ExternalCall
  msgs : List Msg

/-- Everything outside the script that a run depends on: the
environment variables, the current date, and the behaviour of the two
external collaborators. -/
structure World where
  env : Env
  today : Int
  osaOutcome : OsaOutcome
  aiOracle : List InputItem → AiCallOutcome
  updateOracle : String → String → Bool

/-- The provider/credential preflight at the top of the main block:
some message means the script prints it and exits with status 1. -/
def preflight (provider : String) (env : Env) : Option Msg :=
  if provider = "openai" then
    if falsyKey env.openaiKey then some (Msg.fatalMissingKey provider) else none
  else if provider = "anthropic" then
    if falsyKey env.anthropicKey then some (Msg.fatalMissingKey provider) else none
  else if provider = "deepseek" then
    if falsyKey env.deepseekKey then some (Msg.fatalMissingKey provider) else none
  else some (Msg.fatalUnknownProvider provider)

/-- The main block of the script, from the preflight to the final
summary, with the provider constant as a parameter. -/
def mainRun (provider : String) (w : World) : RunResult :=
  match preflight provider w.env with
  | some m => { termination := Termination.exited 1, calls := [], msgs := [m] }
  | none =>
    let cmd := buildExportCommand w.today DAYS_TO_EXPORT UNCATGEGORIZED_CATEGORY_UUID
    let ex := export_transactions_from_moneymoney w.osaOutcome
    let calls0 := [ExternalCall.osaExport cmd]
    match ex.1 with
    | none => { termination := Termination.finished, calls := calls0, msgs := ex.2 }
    | some top =>
      if top.isTruthy then
        match top with
        | ParsedTop.nonDict _ =>
          { termination := Termination.crashed, calls := calls0, msgs := ex.2 }
        | ParsedTop.dict d =>
          let allTrx := d.transactions.getD []
          if reportCrashes allTrx then
            { termination := Termination.crashed, calls := calls0,
              msgs := ex.2 ++ [Msg.exportReport allTrx.length] }
          else
            let msgs1 := ex.2 ++ [Msg.exportReport allTrx.length, Msg.step2]
            let toCat := allTrx.filter (fun t => isBooked t)
            if toCat.isEmpty then
              { termination := Termination.finished, calls := calls0,
                msgs := msgs1 ++ [Msg.noBooked, Msg.step3 0, Msg.noUpdates,
                                  Msg.finalSummary allTrx.length 0, Msg.allDone] }
            else
              match buildInputList toCat with
              | Except.error _ =>
                { termination := Termination.crashed, calls := calls0, msgs := msgs1 }
              | Except.ok items =>
                let m := classifyParse provider (w.aiOracle items)
                let calls1 := calls0 ++ [ExternalCall.aiCall provider items]
                let msgs2 := msgs1 ++ [Msg.aiCategorized m.length, Msg.step3 m.length]
                if m.isEmpty then
                  { termination := Termination.finished, calls := calls1,
                    msgs := msgs2 ++ [Msg.noUpdates,
                                      Msg.finalSummary allTrx.length 0, Msg.allDone] }
                else
                  let wr := writerLoop w.updateOracle m
                  { termination := Termination.finished,
                    calls := calls1 ++ wr.1.map ExternalCall.osaUpdate,
                    msgs := msgs2 ++ wr.2 ++ [Msg.allUpdated,
                              Msg.finalSummary allTrx.length m.length, Msg.allDone] }
      else
        { termination := Termination.finished, calls := calls0, msgs := ex.2 }

/-- A booked sample transaction with all fields present and well
typed. -/
def sampleBooked : Transaction :=
  { id := some "t1", bookingDate := some (PlistVal.date 20000),
    name := some "Grocery Store", purpose := some "weekly shop",
    amount := some (PlistVal.num (-20)), currency := some "EUR",
    booked := some true }

/-- A pending sample transaction. -/
def samplePending : Transaction :=
  { id := some "t2", bookingDate := some (PlistVal.date 20000),
    name := some "Card Hold", purpose := some "pending auth",
    amount := some (PlistVal.num (-5)), currency := some "EUR",
    booked := some false }

/-- A booked sample transaction whose bookingDate holds a string, as a
malformed plist can supply. -/
def strDateTrx : Transaction :=
  { id := some "t3", bookingDate := some (PlistVal.str "2026-01-01"),
    name := some "Kiosk", purpose := some "snack",
    amount := some (PlistVal.num (-3)), currency := some "EUR",
    booked := some true }

/-- A booked sample transaction whose amount holds a string. -/
def strAmountTrx : Transaction :=
  { id := some "t4", bookingDate := some (PlistVal.date 20000),
    name := some "Kiosk", purpose := some "snack",
    amount := some (PlistVal.str "-3.00"), currency := some "EUR",
    booked := some true }

/-! Helper lemmas. -/

/-- When every transaction in the list carries an id, the payload
construction succeeds and maps the list elementwise. -/
theorem buildInputList_ok (l : List Transaction)
    (h : ∀ t ∈ l, t.id.isSome) :
    buildInputList l =
      Except.ok (l.map (fun t => { id := t.id.getD "", detail := detailForAi t })) := by
  induction l with
  | nil => rfl
  | cons t rest ih =>
    have ht : t.id.isSome := h t (List.mem_cons_self t rest)
    obtain ⟨i, hi⟩ := Option.isSome_iff_exists.mp ht
    have hrest : ∀ t ∈ rest, t.id.isSome := fun u hu => h u (List.mem_cons_of_mem t hu)
    simp only [buildInputList, hi, ih hrest, List.map_cons, Option.getD_some]

/-- The writer loop issues exactly one call per map entry, in order,
and reports exactly the failing entries. -/
theorem writerLoop_spec (oracle : String → String → Bool)
    (m : List (String × String)) :
    (writerLoop oracle m).1 =
      m.map (fun p => { trxId := p.1, category := p.2 : UpdateCall }) ∧
    (writerLoop oracle m).2 =
      (m.filter (fun p => !(oracle p.1 p.2))).map (fun p => Msg.updateFailed p.1) := by
  induction m with
  | nil => exact ⟨rfl, rfl⟩
  | cons p rest ih =>
    refine ⟨?_, ?_⟩
    · simp only [writerLoop, List.map_cons, ih.1]
    · simp only [writerLoop, ih.2, List.filter_cons, update_transaction_in_moneymoney]
      cases horacle : oracle p.1 p.2 <;> simp

/-! Claim C5. -/

/-- C5: for every non-negative lookback window W the start date passed
to the finance application equals today minus W days, and W equal to
zero yields today itself. -/
theorem c5_start_date_today_minus_window (today : Int) (w : Nat) (uuid : String) :
    (buildExportCommand today w uuid).fromDate = today - w ∧
    (buildExportCommand today 0 uuid).fromDate = today := by
  refine ⟨rfl, ?_⟩
  simp [buildExportCommand, computeFromDate]

/-! Claim C4. -/

/-- C4: from a batch of transactions, the request payload holds exactly
one item per booked transaction (count M among N) and no item for any
transaction that is not booked: the payload is the elementwise image of
the booked sublist. -/
theorem c4_payload_exactly_booked (ts : List Transaction)
    (h : ∀ t ∈ ts, isBooked t → t.id.isSome) :
    ∃ items, buildInputList (ts.filter (fun t => isBooked t)) = Except.ok items ∧
      items.length = ts.countP (fun t => isBooked t) ∧
      items = (ts.filter (fun t => isBooked t)).map
        (fun t => { id := t.id.getD "", detail := detailForAi t }) := by
  have hall : ∀ t ∈ ts.filter (fun t => isBooked t), t.id.isSome := by
    intro t ht
    have := List.mem_filter.mp ht
    exact h t this.1 this.2
  refine ⟨_, buildInputList_ok _ hall, ?_, rfl⟩
  simp [List.countP_eq_length_filter]

/-- Witness for C4 at a concrete two-element batch with one booked and
one pending transaction. -/
theorem c4_payload_exactly_booked_witness :
    ∃ items,
      buildInputList ([sampleBooked, samplePending].filter (fun t => isBooked t)) =
        Except.ok items ∧
      items.length = [sampleBooked, samplePending].countP (fun t => isBooked t) ∧
      items = ([sampleBooked, samplePending].filter (fun t => isBooked t)).map
        (fun t => { id := t.id.getD "", detail := detailForAi t }) :=
  c4_payload_exactly_booked [sampleBooked, samplePending] (by decide)

/-! Claim C6. -/

/-- C6: Stage 3 attempts exactly one update call per map entry, in map
order, whatever the individual outcomes are (so a failing entry neither
blocks the others nor is retried), and each failing entry is reported
individually. -/
theorem c6_writer_one_call_per_entry (oracle : String → String → Bool)
    (m : List (String × String)) :
    (writerLoop oracle m).1 =
      m.map (fun p => { trxId := p.1, category := p.2 : UpdateCall }) ∧
    (writerLoop oracle m).2 =
      (m.filter (fun p => !(oracle p.1 p.2))).map (fun p => Msg.updateFailed p.1) :=
  writerLoop_spec oracle m

/-! Claim C9. -/

/-- C9: when the automation call exits cleanly and its payload parses
to an empty transaction collection, the exporter hands back the parsed
data (no transactions) with only success messages, while an automation
call failure hands back none with an error message: the two outcomes
are distinguishable both by value and by message. -/
theorem c9_empty_collection_not_error (o ofail : OsaOutcome) (d : ExportedData)
    (h1 : o.returncode = 0) (h2 : o.stdout = Stdout.plist (ParsedTop.dict d))
    (h3 : d.transactions = some []) (h4 : ofail.returncode ≠ 0) :
    (export_transactions_from_moneymoney o).1 = some (ParsedTop.dict d) ∧
    d.transactions.getD [] = [] ∧
    (export_transactions_from_moneymoney o).2 = [Msg.exportStart, Msg.exportOk] ∧
    (export_transactions_from_moneymoney ofail).1 = none ∧
    (export_transactions_from_moneymoney ofail).2 =
      [Msg.exportStart, Msg.exportCallError ofail.stderrMsg] := by
  refine ⟨?_, by simp [h3], ?_, ?_, ?_⟩
  · simp [export_transactions_from_moneymoney, h1, h2]
  · simp [export_transactions_from_moneymoney, h1, h2]
  · simp [export_transactions_from_moneymoney, h4]
  · simp [export_transactions_from_moneymoney, h4]

/-- Witness for C9 at a concrete clean outcome with an empty collection
and a concrete failing outcome. -/
theorem c9_empty_collection_not_error_witness :
    (export_transactions_from_moneymoney
        { returncode := 0,
          stdout := Stdout.plist (ParsedTop.dict
            { transactions := some [], hasOtherKeys := false }),
          stderrMsg := "" }).1 =
      some (ParsedTop.dict { transactions := some [], hasOtherKeys := false }) ∧
    ({ transactions := some [], hasOtherKeys := false : ExportedData
        }).transactions.getD [] = [] ∧
    (export_transactions_from_moneymoney
        { returncode := 0,
          stdout := Stdout.plist (ParsedTop.dict
            { transactions := some [], hasOtherKeys := false }),
          stderrMsg := "" }).2 = [Msg.exportStart, Msg.exportOk] ∧
    (export_transactions_from_moneymoney
        { returncode := 1, stdout := Stdout.empty, stderrMsg := "osascript failed" }).1 =
      none ∧
    (export_transactions_from_moneymoney
        { returncode := 1, stdout := Stdout.empty, stderrMsg := "osascript failed" }).2 =
      [Msg.exportStart, Msg.exportCallError "osascript failed"] :=
  c9_empty_collection_not_error
    { returncode := 0,
      stdout := Stdout.plist (ParsedTop.dict
        { transactions := some [], hasOtherKeys := false }),
      stderrMsg := "" }
    { returncode := 1, stdout := Stdout.empty, stderrMsg := "osascript failed" }
    { transactions := some [], hasOtherKeys := false }
    rfl rfl rfl (by decide)

/-! Claim C7. -/

/-- A configuration error as the claim describes it: an unknown
provider, or a falsy credential for the selected provider. -/
def configError (provider : String) (env : Env) : Prop :=
  providerSupported provider = false ∨
  (provider = "openai" ∧ falsyKey env.openaiKey = true) ∨
  (provider = "anthropic" ∧ falsyKey env.anthropicKey = true) ∨
  (provider = "deepseek" ∧ falsyKey env.deepseekKey = true)

/-- Every configuration error makes the preflight yield a fatal
message. -/
theorem preflight_some_of_configError (provider : String) (env : Env)
    (h : configError provider env) : (preflight provider env).isSome := by
  unfold preflight
  rcases h with h | ⟨hp, hk⟩ | ⟨hp, hk⟩ | ⟨hp, hk⟩
  · simp only [providerSupported, Bool.or_eq_false_iff,
      decide_eq_false_iff_not] at h
    obtain ⟨⟨h1, h2⟩, h3⟩ := h
    simp [h1, h2, h3]
  · subst hp; simp [hk]
  · subst hp
    simp [hk, show ¬("anthropic" = "openai") by decide]
  · subst hp
    simp [hk, show ¬("deepseek" = "openai") by decide,
      show ¬("deepseek" = "anthropic") by decide]

/-- C7: for every configuration error (unknown provider, or missing or
empty API-key variable for the selected provider) the run terminates
with exit status 1 and no external call at all is issued. -/
theorem c7_config_error_exits_before_calls (provider : String) (w : World)
    (h : configError provider w.env) :
    (mainRun provider w).termination = Termination.exited 1 ∧
    (mainRun provider w).calls = [] := by
  obtain ⟨m, hm⟩ := Option.isSome_iff_exists.mp
    (preflight_some_of_configError provider w.env h)
  simp [mainRun, hm]

/-- A world whose environment carries no credential at all. -/
def noKeyWorld : World :=
  { env := { openaiKey := none, anthropicKey := none, deepseekKey := none },
    today := 20000,
    osaOutcome := { returncode := 0, stdout := Stdout.empty, stderrMsg := "" },
    aiOracle := fun _ => AiCallOutcome.exn,
    updateOracle := fun _ _ => true }

/-- Witness for C7: an unknown provider name exits with status 1 and
issues no external call. -/
theorem c7_config_error_exits_before_calls_witness :
    (mainRun "gemini" noKeyWorld).termination = Termination.exited 1 ∧
    (mainRun "gemini" noKeyWorld).calls = [] :=
  c7_config_error_exits_before_calls "gemini" noKeyWorld (Or.inl (by decide))

/-! Claim C1. -/

/-- An export-stage failure as the claim describes it: non-zero exit,
no data on stdout, or an unparsable payload. -/
def exportFailed (o : OsaOutcome) : Prop :=
  o.returncode ≠ 0 ∨ o.stdout = Stdout.empty ∨ o.stdout = Stdout.unparsable

/-- A failed export stage returns none, printing one of the three
error reports. -/
theorem export_failed_none (o : OsaOutcome) (h : exportFailed o) :
    (export_transactions_from_moneymoney o).1 = none ∧
    ((export_transactions_from_moneymoney o).2 =
        [Msg.exportStart, Msg.exportCallError o.stderrMsg] ∨
     (export_transactions_from_moneymoney o).2 = [Msg.exportStart, Msg.exportNoData] ∨
     (export_transactions_from_moneymoney o).2 = [Msg.exportStart, Msg.exportParseError]) := by
  unfold export_transactions_from_moneymoney
  rcases h with h | h | h
  · simp [h]
  · by_cases hr : o.returncode ≠ 0
    · simp [hr]
    · simp [hr, h]
  · by_cases hr : o.returncode ≠ 0
    · simp [hr]
    · simp [hr, h]

/-- The preflight only ever emits a fatal message. -/
theorem preflight_msg_shape (provider : String) (env : Env) (m : Msg)
    (h : preflight provider env = some m) :
    m = Msg.fatalMissingKey provider ∨ m = Msg.fatalUnknownProvider provider := by
  unfold preflight at h
  repeat' split at h
  all_goals simp_all

/-- C1 (amended): when the export stage fails, Stages 2 and 3 do not
execute (no AI call and no write call is issued) and no final summary
is printed at all (the run ends right after the export error report). -/
theorem c1_export_failure_aborts (provider : String) (w : World)
    (h : exportFailed w.osaOutcome) :
    (∀ p items, ExternalCall.aiCall p items ∉ (mainRun provider w).calls) ∧
    (∀ c, ExternalCall.osaUpdate c ∉ (mainRun provider w).calls) ∧
    (∀ e u, Msg.finalSummary e u ∉ (mainRun provider w).msgs) := by
  obtain ⟨hnone, hmsgs⟩ := export_failed_none w.osaOutcome h
  cases hp : preflight provider w.env with
  | some m =>
    refine ⟨?_, ?_, ?_⟩
    · intro p items; simp [mainRun, hp]
    · intro c; simp [mainRun, hp]
    · intro e u
      rcases preflight_msg_shape provider w.env m hp with hm | hm <;>
        simp [mainRun, hp, hm]
  | none =>
    refine ⟨?_, ?_, ?_⟩
    · intro p items; simp [mainRun, hp, hnone]
    · intro c; simp [mainRun, hp, hnone]
    · intro e u
      rcases hmsgs with hm | hm | hm <;> simp [mainRun, hp, hnone, hm]

/-- A world in which the export automation call exits with status 1. -/
def exportFailWorld : World :=
  { env := { openaiKey := none, anthropicKey := none, deepseekKey := some "k" },
    today := 20000,
    osaOutcome := { returncode := 1, stdout := Stdout.empty, stderrMsg := "osa error" },
    aiOracle := fun _ => AiCallOutcome.exn,
    updateOracle := fun _ _ => true }

/-- C1 counterexample: on a failed export the run prints only the
export error report; in particular the claimed zero-count final summary
is never printed. -/
theorem c1_no_summary_counterexample :
    (mainRun "deepseek" exportFailWorld).msgs =
      [Msg.exportStart, Msg.exportCallError "osa error"] ∧
    Msg.finalSummary 0 0 ∉ (mainRun "deepseek" exportFailWorld).msgs := by
  refine ⟨by decide, by decide⟩

/-- Witness for C1 (amended) at the concrete failing world. -/
theorem c1_export_failure_aborts_witness :
    ExternalCall.osaUpdate { trxId := "t1", category := "Auto" } ∉
      (mainRun "deepseek" exportFailWorld).calls ∧
    Msg.finalSummary 0 0 ∉ (mainRun "deepseek" exportFailWorld).msgs := by
  have h := c1_export_failure_aborts "deepseek" exportFailWorld (Or.inl (by decide))
  exact ⟨h.2.1 _, h.2.2 0 0⟩

/-! Claim C8. -/

/-- A world whose payload holds one record with a string bookingDate
and one with a string amount, every id present. -/
def mistypedFieldsWorld : World :=
  { env := { openaiKey := none, anthropicKey := none, deepseekKey := some "k" },
    today := 20000,
    osaOutcome := { returncode := 0,
                    stdout := Stdout.plist (ParsedTop.dict
                      { transactions := some [strDateTrx, strAmountTrx],
                        hasOtherKeys := false }),
                    stderrMsg := "" },
    aiOracle := fun _ => AiCallOutcome.exn,
    updateOracle := fun _ _ => true }

/-- The report loop's unguarded strftime and float formatting crash the
run on mistyped bookingDate and amount values even though every booked
record carries an id. -/
theorem mainRun_crashes_on_mistyped_fields :
    (mainRun "deepseek" mistypedFieldsWorld).termination = Termination.crashed := by
  decide

/-- A world whose payload parses to a truthy non-dict value. -/
def nonDictWorld : World :=
  { env := { openaiKey := none, anthropicKey := none, deepseekKey := some "k" },
    today := 20000,
    osaOutcome := { returncode := 0,
                    stdout := Stdout.plist (ParsedTop.nonDict true),
                    stderrMsg := "" },
    aiOracle := fun _ => AiCallOutcome.exn,
    updateOracle := fun _ _ => true }

/-- The attribute-style access on the parsed payload crashes the run
when the plist top level is not a dict. -/
theorem mainRun_crashes_on_nonDict_payload :
    (mainRun "deepseek" nonDictWorld).termination = Termination.crashed := by
  decide

/-! Claim C3. -/

/-- A backend whose single response entry carries a category outside
the allowed set. -/
def hallucinatingOracle : List InputItem → AiCallOutcome :=
  fun _ => AiCallOutcome.response (RespContent.objectWith
    [{ id := some "t1", category := some "Magic Beans" }])

/-- A world in which the export succeeds with one booked transaction
and the backend hallucinates an out-of-set category. -/
def hallucinationWorld : World :=
  { env := { openaiKey := none, anthropicKey := none, deepseekKey := some "k" },
    today := 20000,
    osaOutcome := { returncode := 0,
                    stdout := Stdout.plist (ParsedTop.dict
                      { transactions := some [sampleBooked], hasOtherKeys := false }),
                    stderrMsg := "" },
    aiOracle := hallucinatingOracle,
    updateOracle := fun _ _ => true }

/-- C3 counterexample: a category value outside the allowed set is
neither rejected nor coerced to the fallback; the run issues a write
call carrying it verbatim. -/
theorem c3_unvalidated_write_counterexample :
    ExternalCall.osaUpdate { trxId := "t1", category := "Magic Beans" } ∈
      (mainRun "deepseek" hallucinationWorld).calls ∧
    "Magic Beans" ∉ AVAILABLE_CATEGORIES := by
  refine ⟨by decide, by decide⟩

/-- C3 (amended): no validation of returned categories happens at all;
every entry of the classifier's mapping is handed to the write-back
call with its category string verbatim, whether or not it belongs to
the allowed set. -/
theorem c3_categories_written_verbatim (provider : String) (w : World)
    (d : ExportedData) (items : List InputItem) (m : List (String × String))
    (h0 : preflight provider w.env = none)
    (h1 : (export_transactions_from_moneymoney w.osaOutcome).1 =
      some (ParsedTop.dict d))
    (h2 : d.isTruthy = true)
    (hr : reportCrashes (d.transactions.getD []) = false)
    (h3 : ((d.transactions.getD []).filter (fun t => isBooked t)).isEmpty = false)
    (h4 : buildInputList ((d.transactions.getD []).filter (fun t => isBooked t)) =
      Except.ok items)
    (h5 : classifyParse provider (w.aiOracle items) = m) :
    ∀ p ∈ m, ExternalCall.osaUpdate { trxId := p.1, category := p.2 } ∈
      (mainRun provider w).calls := by
  intro p hp
  have hme : m.isEmpty = false := by
    cases m with
    | nil => exact absurd hp (List.not_mem_nil p)
    | cons q rest => rfl
  simp only [mainRun, h0, h1, ParsedTop.isTruthy, h2, hr, h3, h4, h5, hme,
    Bool.false_eq_true, if_false, if_true, List.isEmpty_eq_false]
  simp only [(writerLoop_spec w.updateOracle m).1, List.map_map]
  refine List.mem_append.mpr (Or.inr ?_)
  exact List.mem_map.mpr ⟨p, hp, rfl⟩

/-- Witness for C3 (amended) at the hallucination world. -/
theorem c3_categories_written_verbatim_witness :
    ExternalCall.osaUpdate { trxId := "t1", category := "Magic Beans" } ∈
      (mainRun "deepseek" hallucinationWorld).calls := by
  have h := c3_categories_written_verbatim "deepseek" hallucinationWorld
    { transactions := some [sampleBooked], hasOtherKeys := false }
    [{ id := "t1", detail := "Grocery Store - weekly shop" }]
    [("t1", "Magic Beans")]
    (by decide) rfl rfl (by decide) (by decide) rfl (by decide)
  exact h ("t1", "Magic Beans") (by decide)

/-! Claim C2. -/

/-- The malformed-response cases the handler can meet: a backend
exception, unusable text, a non-object value, a missing results field,
or a result entry lacking one of its two fields. -/
def AiCallOutcome.malformed : AiCallOutcome → Bool
  | AiCallOutcome.exn => true
  | AiCallOutcome.response RespContent.unparsable => true
  | AiCallOutcome.response RespContent.notAnObject => true
  | AiCallOutcome.response RespContent.objectWithoutField => true
  | AiCallOutcome.response (RespContent.objectWith entries) =>
    entries.any (fun it => it.id.isNone || it.category.isNone)

/-- A result entry lacking a field makes the whole map construction
raise, whatever was accumulated so far. -/
theorem buildIdCategoryMapAux_none (entries : List RespItem)
    (h : entries.any (fun it => it.id.isNone || it.category.isNone) = true) :
    ∀ acc, buildIdCategoryMapAux acc entries = none := by
  induction entries with
  | nil => simp at h
  | cons it rest ih =>
    intro acc
    unfold buildIdCategoryMapAux
    cases hid : it.id with
    | none => rfl
    | some i =>
      cases hcat : it.category with
      | none => rfl
      | some c =>
        have hrest := h
        simp only [List.any_cons, Bool.or_eq_true] at hrest
        rcases hrest with hbad | hrest
        · simp [hid, hcat] at hbad
        · exact ih hrest _

/-- Keys of the map after a Python-dict insertion: unchanged when the
key was present, the key appended otherwise. -/
theorem keys_insertAssoc_eq (m : List (String × String)) (k v : String) :
    (insertAssoc m k v).map Prod.fst =
      if m.any (fun p => p.1 = k) then m.map Prod.fst
      else m.map Prod.fst ++ [k] := by
  unfold insertAssoc
  split
  case isTrue h =>
    rw [List.map_map]
    apply List.map_congr_left
    intro p _
    by_cases hpk : p.1 = k
    · simp [hpk]
    · simp [hpk]
  case isFalse h =>
    simp

/-- Keys accumulated by the map construction come from the accumulator
or from the ids present in the entries. -/
theorem keys_buildIdCategoryMapAux (entries : List RespItem) :
    ∀ acc m, buildIdCategoryMapAux acc entries = some m →
      ∀ x ∈ m.map Prod.fst,
        x ∈ acc.map Prod.fst ∨ x ∈ entries.filterMap RespItem.id := by
  induction entries with
  | nil =>
    intro acc m hm x hx
    simp only [buildIdCategoryMapAux] at hm
    cases hm
    exact Or.inl hx
  | cons it rest ih =>
    intro acc m hm x hx
    unfold buildIdCategoryMapAux at hm
    cases hid : it.id with
    | none => rw [hid] at hm; cases hm
    | some i =>
      cases hcat : it.category with
      | none => rw [hid, hcat] at hm; cases hm
      | some c =>
        rw [hid, hcat] at hm
        rcases ih _ _ hm x hx with hacc | hrest
        · rw [keys_insertAssoc_eq] at hacc
          split at hacc
          · exact Or.inl hacc
          · rcases List.mem_append.mp hacc with ha | ha
            · exact Or.inl ha
            · right
              simp only [List.mem_singleton] at ha
              subst ha
              simp [List.filterMap_cons, hid]
        · right
          simp only [List.filterMap_cons, hid]
          exact List.mem_cons_of_mem i hrest

/-- C2 (amended): every malformed backend response yields the empty
mapping, never a partial one; a well-formed response yields a mapping
whose keys all come from the identifiers in the response entries,
which the code never checks against the submitted identifiers; and the
classifier returns exactly that parse of the backend outcome. -/
theorem c2_map_empty_or_from_response (provider : String) (outcome : AiCallOutcome) :
    (outcome.malformed = true → classifyParse provider outcome = []) ∧
    (∀ entries m, outcome = AiCallOutcome.response (RespContent.objectWith entries) →
      buildIdCategoryMap entries = some m →
      ∀ x ∈ m.map Prod.fst, x ∈ entries.filterMap RespItem.id) ∧
    (∀ oracle ts items, buildInputList ts = Except.ok items →
      get_ai_categories_batch oracle provider ts =
        Except.ok (classifyParse provider (oracle items))) := by
  refine ⟨?_, ?_, ?_⟩
  · intro hmal
    unfold classifyParse
    by_cases hsup : providerSupported provider
    · rw [if_pos hsup]
      cases outcome with
      | exn => rfl
      | response content =>
        cases content with
        | unparsable => rfl
        | notAnObject => rfl
        | objectWithoutField => rfl
        | objectWith entries =>
          simp only [AiCallOutcome.malformed] at hmal
          show (match buildIdCategoryMap entries with
                | none => []
                | some m => m) = []
          rw [show buildIdCategoryMap entries = none from
            buildIdCategoryMapAux_none entries hmal []]
    · rw [if_neg hsup]
  · intro entries m houtcome hmap x hx
    rcases keys_buildIdCategoryMapAux entries [] m hmap x hx with h | h
    · simp at h
    · exact h
  · intro oracle ts items hts
    unfold get_ai_categories_batch
    rw [hts]

/-- Witness for C2 (amended): a backend exception yields the empty map,
a well-formed single-entry response has its key among the response
ids, and the classifier passes the parsed outcome through. -/
theorem c2_map_empty_or_from_response_witness :
    classifyParse "deepseek" AiCallOutcome.exn = [] ∧
    "a" ∈ [RespItem.mk (some "a") (some "Auto")].filterMap RespItem.id ∧
    get_ai_categories_batch (fun _ => AiCallOutcome.exn) "deepseek" [sampleBooked] =
      Except.ok (classifyParse "deepseek" ((fun _ => AiCallOutcome.exn)
        [{ id := "t1", detail := "Grocery Store - weekly shop" : InputItem }])) := by
  refine ⟨?_, ?_, ?_⟩
  · exact (c2_map_empty_or_from_response "deepseek" AiCallOutcome.exn).1 rfl
  · exact (c2_map_empty_or_from_response "deepseek"
      (AiCallOutcome.response (RespContent.objectWith
        [RespItem.mk (some "a") (some "Auto")]))).2.1
      [RespItem.mk (some "a") (some "Auto")] [("a", "Auto")] rfl (by decide)
      "a" (by decide)
  · exact (c2_map_empty_or_from_response "deepseek" AiCallOutcome.exn).2.2
      (fun _ => AiCallOutcome.exn) [sampleBooked] _ rfl

/-- A backend whose response carries an identifier that was never
submitted. -/
def ghostOracle : List InputItem → AiCallOutcome :=
  fun _ => AiCallOutcome.response (RespContent.objectWith
    [{ id := some "ghost", category := some "Shopping" }])

/-- C2 counterexample: the classifier accepts a response naming an
identifier that was never submitted, so its keys are not a subset of
the submitted identifiers. -/
theorem c2_keys_not_subset_counterexample :
    get_ai_categories_batch ghostOracle "deepseek" [sampleBooked] =
      Except.ok [("ghost", "Shopping")] ∧
    "ghost" ∉ [sampleBooked].filterMap Transaction.id := by
  exact ⟨rfl, by decide⟩

/-! Claim C10. -/

/-- The pair a well-formed response entry denotes. -/
def entryPair (it : RespItem) : Option (String × String) :=
  match it.id, it.category with
  | some a, some c => some (a, c)
  | _, _ => none

/-- Lookup after replacing every pair keyed by k: the key k now maps
to v exactly when it was present, other keys are untouched. -/
theorem lookupAssoc_replace (m : List (String × String)) (k v i : String) :
    lookupAssoc (m.map (fun p => if p.1 = k then (k, v) else p)) i =
      if k = i then (if m.any (fun p => p.1 = k) then some v else none)
      else lookupAssoc m i := by
  induction m with
  | nil => simp [lookupAssoc]
  | cons p rest ih =>
    by_cases hpk : p.1 = k
    · by_cases hki : k = i
      · simp [lookupAssoc, hpk, hki]
      · have hpi : ¬ (p.1 = i) := by rw [hpk]; exact hki
        simp [lookupAssoc, hpk, hki, hpi, ih]
    · by_cases hpi : p.1 = i
      · have hki : ¬ (k = i) := by
          intro hk
          exact hpk (hpi.trans hk.symm)
        have hik : ¬ (i = k) := fun hk => hki hk.symm
        simp [lookupAssoc, hpk, hpi, hki, hik]
      · have hd : (decide (p.1 = k)) = false := by simp [hpk]
        simp [lookupAssoc, hpk, hpi, ih]
        rw [hd, Bool.false_or]

/-- Lookup after appending a freshly keyed pair. -/
theorem lookupAssoc_append_single (m : List (String × String)) (k v i : String)
    (h : m.any (fun p => p.1 = k) = false) :
    lookupAssoc (m ++ [(k, v)]) i =
      if k = i then some v else lookupAssoc m i := by
  induction m with
  | nil => simp [lookupAssoc]
  | cons p rest ih =>
    simp only [List.any_cons, Bool.or_eq_false_iff, decide_eq_false_iff_not] at h
    by_cases hpi : p.1 = i
    · have hki : ¬ (k = i) := fun hk => h.1 (hpi.trans hk.symm)
      simp [lookupAssoc, hpi, hki]
    · simp [lookupAssoc, hpi, ih h.2]

/-- Python-dict insertion seen through lookup: the inserted key maps
to the new value, every other key keeps its binding. -/
theorem lookupAssoc_insertAssoc (m : List (String × String)) (k v i : String) :
    lookupAssoc (insertAssoc m k v) i =
      if k = i then some v else lookupAssoc m i := by
  unfold insertAssoc
  split
  case isTrue h =>
    rw [lookupAssoc_replace, h]
    simp
  case isFalse h =>
    have h' : (m.any fun p => decide (p.1 = k)) = false := by
      cases hb : m.any fun p => decide (p.1 = k)
      · rfl
      · exact absurd hb h
    exact lookupAssoc_append_single m k v i h'

/-- Lookup in the accumulated map: the last matching response entry
wins, falling back to the accumulator when no entry matches. -/
theorem lookupAssoc_buildIdCategoryMapAux (entries : List RespItem) :
    ∀ acc m, buildIdCategoryMapAux acc entries = some m → ∀ i,
      lookupAssoc m i =
        match (entries.filterMap entryPair).reverse.find? (fun p => p.1 = i) with
        | some p => some p.2
        | none => lookupAssoc acc i := by
  induction entries with
  | nil =>
    intro acc m hm i
    simp only [buildIdCategoryMapAux] at hm
    cases hm
    rfl
  | cons it rest ih =>
    intro acc m hm i
    unfold buildIdCategoryMapAux at hm
    cases hid : it.id with
    | none => rw [hid] at hm; cases hm
    | some a =>
      cases hcat : it.category with
      | none => rw [hid, hcat] at hm; cases hm
      | some c =>
        rw [hid, hcat] at hm
        rw [ih _ _ hm i]
        have hpair : entryPair it = some (a, c) := by
          simp [entryPair, hid, hcat]
        rw [List.filterMap_cons, hpair, List.reverse_cons, List.find?_append]
        cases hfind : (rest.filterMap entryPair).reverse.find? (fun p => p.1 = i) with
        | some p => simp [Option.or]
        | none =>
          simp only [Option.none_or]
          rw [lookupAssoc_insertAssoc]
          by_cases hai : a = i
          · simp [List.find?, hai]
          · simp [List.find?, hai]

/-- Keys stay duplicate-free under the map construction. -/
theorem keys_nodup_buildIdCategoryMapAux (entries : List RespItem) :
    ∀ acc m, (acc.map Prod.fst).Nodup → buildIdCategoryMapAux acc entries = some m →
      (m.map Prod.fst).Nodup := by
  induction entries with
  | nil =>
    intro acc m hacc hm
    simp only [buildIdCategoryMapAux] at hm
    cases hm
    exact hacc
  | cons it rest ih =>
    intro acc m hacc hm
    unfold buildIdCategoryMapAux at hm
    cases hid : it.id with
    | none => rw [hid] at hm; cases hm
    | some a =>
      cases hcat : it.category with
      | none => rw [hid, hcat] at hm; cases hm
      | some c =>
        rw [hid, hcat] at hm
        refine ih _ _ ?_ hm
        rw [keys_insertAssoc_eq]
        split
        · exact hacc
        case isFalse h =>
          rw [List.nodup_append]
          refine ⟨hacc, List.nodup_singleton a, ?_⟩
          intro x hx hxa
          simp only [List.mem_singleton] at hxa
          obtain ⟨p, hp, hpe⟩ := List.mem_map.mp hx
          have hpa : p.1 = a := hpe.trans hxa
          exact h (List.any_eq_true.mpr ⟨p, hp, by simp [hpa]⟩)

/-- C10: when the response holds several entries with the same
identifier, the resulting map binds that identifier to the category of
the last such entry (lookup agrees with the last matching entry of the
entry list), and the map's keys hold no duplicates. -/
theorem c10_duplicate_ids_last_wins (entries : List RespItem)
    (m : List (String × String)) (h : buildIdCategoryMap entries = some m) :
    (m.map Prod.fst).Nodup ∧
    ∀ i, lookupAssoc m i =
      ((entries.filterMap entryPair).reverse.find? (fun p => p.1 = i)).map Prod.snd := by
  constructor
  · exact keys_nodup_buildIdCategoryMapAux entries [] m (by simp) h
  · intro i
    rw [lookupAssoc_buildIdCategoryMapAux entries [] m h i]
    cases hf : (entries.filterMap entryPair).reverse.find? (fun p => p.1 = i) with
    | some p => simp
    | none => simp [lookupAssoc]

/-- Witness for C10: two response entries share the identifier; the
map holds its last category only, with duplicate-free keys. -/
theorem c10_duplicate_ids_last_wins_witness :
    (([("t1", "Pets")] : List (String × String)).map Prod.fst).Nodup ∧
    ∀ i, lookupAssoc [("t1", "Pets")] i =
      ((([RespItem.mk (some "t1") (some "Auto"),
          RespItem.mk (some "t1") (some "Pets")].filterMap entryPair).reverse.find?
        (fun p => p.1 = i)).map Prod.snd) :=
  c10_duplicate_ids_last_wins
    [RespItem.mk (some "t1") (some "Auto"), RespItem.mk (some "t1") (some "Pets")]
    [("t1", "Pets")] (by decide)

end MMAI
